import Mathlib

/-!
Verification of the gpiod Lua wrapper (src/gpiod_lua.c).

The wrapper sits between Lua and the external libgpiod driver.  We model
the external driver as an oracle (structure `Driver`) that answers each
primitive call, and every wrapper function additionally returns the list
of driver calls it performed (`List DriverCall`), so that properties of
the form "no driver call is attempted on a closed handle" are directly
statable.

Lua tables passed as value sequences are modelled as `Nat → Option Int`
(`lua_rawgeti` at an absent index yields nil, on which
`luaL_checkinteger` raises a Lua argument error, modelled by
`LuaErr.argError`).  The errors raised by `luaL_error` in the C source
are modelled by the remaining `LuaErr` constructors, one per distinct
message kind, following the error taxonomy of the specification:
`chipClosed` is the message "Chip is closed" (ClosedResource),
`lineReleased` is "Line is released" (ReleasedResource),
`deviceNotFound` is "Failed to open GPIO chip" (DeviceNotFound),
`lineNotFound` is "Failed to get GPIO line" (LineNotFound),
`requestFailed` covers the "Failed to request ..." and
"Failed to get GPIO line bulk" messages (RequestFailed),
`ioFailure` covers the "Failed to read/set/wait ..." messages
(IOFailure), and `indexOutOfRange` is "Index out of range".

The chip-iterator state held behind the opaque `gpiod_chip_iter`
pointer is modelled as the list of chips not yet yielded; the libgpiod
contract used here is that `gpiod_chip_iter_next_noclose` yields the
next chip without closing any previously yielded chip, and
`gpiod_chip_iter_free_noclose` frees the iterator without closing any
chip (that is exactly what distinguishes the `_noclose` variants).
-/

abbrev ChipRef := Nat

abbrev LineRef := Nat

/-- A struct timespec as filled in by the wrapper before a wait. -/
structure Timespec where
  sec : Int
  nsec : Int
  deriving DecidableEq, Repr

/-- Lua errors raised by the wrapper, one constructor per distinct
luaL_error message kind in the C source, plus `argError` for the error
that `luaL_checkinteger` itself raises when a table slot is nil. -/
inductive LuaErr where
  | chipClosed
  | lineReleased
  | deviceNotFound
  | lineNotFound
  | requestFailed
  | ioFailure
  | indexOutOfRange
  | argError
  deriving DecidableEq, Repr

/-- One call into the external libgpiod driver, with its arguments. -/
inductive DriverCall where
  | openByName (name : String)
  | openByNumber (num : Nat)
  | chipName (c : ChipRef)
  | chipLabel (c : ChipRef)
  | chipNumLines (c : ChipRef)
  | chipClose (c : ChipRef)
  | getLine (c : ChipRef) (offset : Nat)
  | getLines (c : ChipRef) (offsets : List Nat)
  | findLine (c : ChipRef) (name : String)
  | getAllLines (c : ChipRef)
  | requestInput (l : LineRef) (consumer : String) (flags : Int)
  | requestOutput (l : LineRef) (consumer : String) (flags : Int) (value : Int)
  | lineGetValue (l : LineRef)
  | lineSetValue (l : LineRef) (v : Int)
  | lineRelease (l : LineRef)
  | eventWait (l : LineRef) (timeout : Option Timespec)
  | lineEventRead (l : LineRef)
  | requestBulkInput (ls : List LineRef) (consumer : String) (flags : Int)
  | requestBulkOutput (ls : List LineRef) (consumer : String) (flags : Int) (values : List Int)
  | getValueBulk (ls : List LineRef)
  | setValueBulk (ls : List LineRef) (values : List Int)
  | releaseBulk (ls : List LineRef)
  | iterNextNoclose
  | iterFreeNoclose
  deriving DecidableEq, Repr

/-- The external libgpiod driver, modelled as an oracle answering each
primitive call (section 6 of the specification treats it as an external
collaborator).  Functions returning an `Int` return the C return code
(negative on failure); `getValueBulk` returns the return code together
with the buffer of values the driver wrote (one per requested line,
read back by index). -/
structure Driver where
  openByName : String → Option ChipRef
  openByNumber : Nat → Option ChipRef
  chipName : ChipRef → String
  chipLabel : ChipRef → String
  chipNumLines : ChipRef → Nat
  getLine : ChipRef → Nat → Option LineRef
  getLines : ChipRef → List Nat → Option (List LineRef)
  findLine : ChipRef → String → Option LineRef
  getAllLines : ChipRef → Option (List LineRef)
  getLineValue : LineRef → Int
  setLineValue : LineRef → Int → Int
  requestInput : LineRef → String → Int → Int
  requestOutput : LineRef → String → Int → Int → Int
  eventWait : LineRef → Option Timespec → Int
  requestBulkInput : List LineRef → String → Int → Int
  requestBulkOutput : List LineRef → String → Int → List Int → Int
  getValueBulk : List LineRef → Int × (Nat → Int)
  setValueBulk : List LineRef → List Int → Int

/-- C conversion of a 64-bit lua_Integer to unsigned int (reduction
modulo 2 ^ 32), as in `unsigned int offset = luaL_checkinteger(...)`. -/
def c_uint_cast (v : Int) : Nat := (v % (2 ^ 32 : Int)).toNat

/-- C conversion of a 64-bit lua_Integer to a signed 32-bit int (wrap),
as in `int value = luaL_checkinteger(...)`. -/
def c_int_cast (v : Int) : Int := (v + 2 ^ 31) % 2 ^ 32 - 2 ^ 31

/-- Characters accepted by isspace in the C locale. -/
def isCSpace (c : Char) : Bool :=
  c == ' ' || c == '\t' || c == '\n' || c == '\x0b' || c == '\x0c' || c == '\r'

def ULONG_MAX : Nat := 2 ^ 64 - 1

structure StrtoulResult where
  value : Nat
  consumedAll : Bool
  deriving DecidableEq, Repr

/-- Consumption of the optional single sign character accepted by
strtoul: returns whether a minus sign was seen and the remaining
characters. -/
def splitSign (cs : List Char) : Bool × List Char :=
  match cs with
  | [] => (false, [])
  | c :: rest =>
    if c == '-' then (true, rest)
    else if c == '+' then (false, rest)
    else (false, c :: rest)

/-- Model of `strtoul(s, &endptr, 10)` on a 64-bit host together with
the test `*endptr == 0` performed by chip_open: skip C whitespace,
allow one optional sign, read the longest run of decimal digits; when
no digit is read the end pointer is reset to the start of the string
(so the test succeeds only for the empty string); on overflow the value
clamps to ULONG_MAX; a minus sign negates the value in unsigned
arithmetic. -/
def strtoul10 (s : String) : StrtoulResult :=
  let afterWs := s.data.dropWhile isCSpace
  let sgn := splitSign afterWs
  let digs := sgn.2.takeWhile Char.isDigit
  let rest := sgn.2.dropWhile Char.isDigit
  if digs.isEmpty then
    { value := 0, consumedAll := s.data.isEmpty }
  else
    let m := digs.foldl (fun a c => a * 10 + (c.toNat - 48)) 0
    let clamped := min m ULONG_MAX
    { value := if sgn.1 then (2 ^ 64 - clamped % 2 ^ 64) % 2 ^ 64 else clamped,
      consumedAll := rest.isEmpty }

/-- Modelled from the wording of claim C5: a string that is a valid
unsigned integer, read as a nonempty string of decimal digits.  Used
only to compare the claim against the behaviour of chip_open. -/
def isValidUnsignedInteger (s : String) : Bool :=
  !s.data.isEmpty && s.data.all Char.isDigit

/-- A Lua table viewed through lua_rawgeti: lookup by positive index,
absent entries yield nil. -/
def tableOfList (l : List Int) : Nat → Option Int :=
  fun i => if i = 0 then none else l.get? (i - 1)

/-- The marshalling loop `for i { lua_rawgeti(t, i+1); values[i] =
luaL_checkinteger(L, -1); }` reading n entries starting at index i:
it stops with a Lua argument error on the first nil entry, and each
value read is converted to a C int. -/
def readTableIntsFrom (tbl : Nat → Option Int) : Nat → Nat → Except LuaErr (List Int)
  | _, 0 => .ok []
  | i, n + 1 =>
    match tbl i with
    | none => .error .argError
    | some v =>
      match readTableIntsFrom tbl (i + 1) n with
      | .error e => .error e
      | .ok rest => .ok (c_int_cast v :: rest)

def readTableInts (tbl : Nat → Option Int) (n : Nat) : Except LuaErr (List Int) :=
  readTableIntsFrom tbl 1 n

/-- LuaChip userdata: nullable native descriptor. -/
structure LuaChip where
  chip : Option ChipRef
  deriving DecidableEq, Repr

/-- LuaLine userdata: nullable native line reference plus a non-owning
reference to the chip it came from. -/
structure LuaLine where
  line : Option LineRef
  chip : ChipRef
  deriving DecidableEq, Repr

/-- LuaLineBulk userdata: the gpiod_line_bulk (an ordered, fixed-size
array of line references with its count) plus a non-owning chip
reference.  Note there is no nullable released state. -/
structure LuaLineBulk where
  bulk : List LineRef
  chip : ChipRef
  deriving DecidableEq, Repr

/-- LuaChipIter userdata: nullable iterator state; the state behind the
opaque pointer is modelled as the list of chips not yet yielded. -/
structure LuaChipIter where
  iter : Option (List ChipRef)
  deriving DecidableEq, Repr

/-- Conversion `ts.tv_sec = (time_t)timeout; ts.tv_nsec =
(long)((timeout - ts.tv_sec) * 1e9)` for a non-negative timeout, with
lua_Number idealised as a rational (for a non-negative value the C
truncating casts agree with the floor). -/
def timespecOfRat (q : ℚ) : Timespec :=
  ⟨⌊q⌋, ⌊(q - (⌊q⌋ : ℚ)) * 1000000000⌋⟩

/-- The deadline the wrapper passes to the driver wait: the C code
defaults an omitted timeout to -1 (luaL_optnumber), builds a timespec
when the timeout is non-negative, and passes NULL (wait indefinitely)
otherwise. -/
def waitDeadline (timeout : Option ℚ) : Option Timespec :=
  let t : ℚ := timeout.getD (-1)
  if 0 ≤ t then some (timespecOfRat t) else none

-- ===========================================================================
-- Wrapper functions, translated from src/gpiod_lua.c
-- ===========================================================================

/-- gpiod.chip_open(name_or_number), lines 63-88. -/
def chip_open (drv : Driver) (name : String) :
    Except LuaErr LuaChip × List DriverCall :=
  match drv.openByName name with
  | some c => (.ok ⟨some c⟩, [.openByName name])
  | none =>
    let r := strtoul10 name
    if r.consumedAll then
      let num := r.value % 2 ^ 32
      match drv.openByNumber num with
      | some c => (.ok ⟨some c⟩, [.openByName name, .openByNumber num])
      | none => (.error .deviceNotFound, [.openByName name, .openByNumber num])
    else
      (.error .deviceNotFound, [.openByName name])

/-- chip:get_line(offset), lines 91-111. -/
def chip_get_line (drv : Driver) (c : LuaChip) (offset : Int) :
    Except LuaErr LuaLine × List DriverCall :=
  match c.chip with
  | none => (.error .chipClosed, [])
  | some cr =>
    let off := c_uint_cast offset
    match drv.getLine cr off with
    | none => (.error .lineNotFound, [.getLine cr off])
    | some lr => (.ok ⟨some lr, cr⟩, [.getLine cr off])

/-- chip:get_lines(offsets_table), lines 114-148.  The offsets table is
a proper integer sequence whose length lua_rawlen reports, so it is
modelled directly as a list; each entry is converted to unsigned int. -/
def chip_get_lines (drv : Driver) (c : LuaChip) (offsets : List Int) :
    Except LuaErr LuaLineBulk × List DriverCall :=
  match c.chip with
  | none => (.error .chipClosed, [])
  | some cr =>
    let offs := offsets.map c_uint_cast
    match drv.getLines cr offs with
    | none => (.error .requestFailed, [.getLines cr offs])
    | some lrs => (.ok ⟨lrs, cr⟩, [.getLines cr offs])

/-- chip:find_line(name), lines 151-173. -/
def chip_find_line (drv : Driver) (c : LuaChip) (name : String) :
    Except LuaErr (Option LuaLine) × List DriverCall :=
  match c.chip with
  | none => (.error .chipClosed, [])
  | some cr =>
    match drv.findLine cr name with
    | none => (.ok none, [.findLine cr name])
    | some lr => (.ok (some ⟨some lr, cr⟩), [.findLine cr name])

/-- chip:get_all_lines(), lines 176-196. -/
def chip_get_all_lines (drv : Driver) (c : LuaChip) :
    Except LuaErr LuaLineBulk × List DriverCall :=
  match c.chip with
  | none => (.error .chipClosed, [])
  | some cr =>
    match drv.getAllLines cr with
    | none => (.error .requestFailed, [.getAllLines cr])
    | some lrs => (.ok ⟨lrs, cr⟩, [.getAllLines cr])

/-- chip:name(), lines 199-208. -/
def chip_name (drv : Driver) (c : LuaChip) :
    Except LuaErr String × List DriverCall :=
  match c.chip with
  | none => (.error .chipClosed, [])
  | some cr => (.ok (drv.chipName cr), [.chipName cr])

/-- chip:label(), lines 211-220. -/
def chip_label (drv : Driver) (c : LuaChip) :
    Except LuaErr String × List DriverCall :=
  match c.chip with
  | none => (.error .chipClosed, [])
  | some cr => (.ok (drv.chipLabel cr), [.chipLabel cr])

/-- chip:num_lines(), lines 223-232. -/
def chip_num_lines (drv : Driver) (c : LuaChip) :
    Except LuaErr Nat × List DriverCall :=
  match c.chip with
  | none => (.error .chipClosed, [])
  | some cr => (.ok (drv.chipNumLines cr), [.chipNumLines cr])

/-- chip:close(), lines 235-244: closes the descriptor and nulls it;
a no-op when already closed. -/
def chip_close (c : LuaChip) : LuaChip × List DriverCall :=
  match c.chip with
  | none => (c, [])
  | some cr => (⟨none⟩, [.chipClose cr])

/-- line:request_input(consumer, [flags]), lines 251-267. -/
def line_request_input (drv : Driver) (l : LuaLine) (consumer : String)
    (flags : Option Int) :
    Except LuaErr Bool × List DriverCall :=
  let f := c_int_cast (flags.getD 0)
  match l.line with
  | none => (.error .lineReleased, [])
  | some lr =>
    if drv.requestInput lr consumer f < 0 then
      (.error .requestFailed, [.requestInput lr consumer f])
    else
      (.ok true, [.requestInput lr consumer f])

/-- line:request_output(consumer, default_val, [flags]), lines 270-287. -/
def line_request_output (drv : Driver) (l : LuaLine) (consumer : String)
    (defaultVal : Int) (flags : Option Int) :
    Except LuaErr Bool × List DriverCall :=
  let dv := c_int_cast defaultVal
  let f := c_int_cast (flags.getD 0)
  match l.line with
  | none => (.error .lineReleased, [])
  | some lr =>
    if drv.requestOutput lr consumer f dv < 0 then
      (.error .requestFailed, [.requestOutput lr consumer f dv])
    else
      (.ok true, [.requestOutput lr consumer f dv])

/-- line:get_value(), lines 290-304. -/
def line_get_value (drv : Driver) (l : LuaLine) :
    Except LuaErr Int × List DriverCall :=
  match l.line with
  | none => (.error .lineReleased, [])
  | some lr =>
    if drv.getLineValue lr < 0 then
      (.error .ioFailure, [.lineGetValue lr])
    else
      (.ok (drv.getLineValue lr), [.lineGetValue lr])

/-- line:set_value(value), lines 307-322. -/
def line_set_value (drv : Driver) (l : LuaLine) (value : Int) :
    Except LuaErr Bool × List DriverCall :=
  let v := c_int_cast value
  match l.line with
  | none => (.error .lineReleased, [])
  | some lr =>
    if drv.setLineValue lr v < 0 then
      (.error .ioFailure, [.lineSetValue lr v])
    else
      (.ok true, [.lineSetValue lr v])

/-- line:release(), lines 406-415: releases the native reference and
nulls it; a no-op when already released. -/
def line_release (l : LuaLine) : LuaLine × List DriverCall :=
  match l.line with
  | none => (l, [])
  | some lr => (⟨none, l.chip⟩, [.lineRelease lr])

/-- line:event_wait(timeout_sec), lines 529-553. -/
def line_event_wait (drv : Driver) (l : LuaLine) (timeout : Option ℚ) :
    Except LuaErr Bool × List DriverCall :=
  let t : ℚ := timeout.getD (-1)
  match l.line with
  | none => (.error .lineReleased, [])
  | some lr =>
    let tp : Option Timespec := if 0 ≤ t then some (timespecOfRat t) else none
    if drv.eventWait lr tp < 0 then
      (.error .ioFailure, [.eventWait lr tp])
    else
      (.ok (decide (0 < drv.eventWait lr tp)), [.eventWait lr tp])

/-- bulk:num_lines(), lines 691-696. -/
def bulk_num_lines (b : LuaLineBulk) : Nat := b.bulk.length

/-- bulk:get_line(index), lines 699-715. -/
def bulk_get_line (b : LuaLineBulk) (index : Int) :
    Except LuaErr LuaLine × List DriverCall :=
  let i := c_uint_cast index
  if h : i < b.bulk.length then
    (.ok ⟨some (b.bulk.get ⟨i, h⟩), b.chip⟩, [])
  else
    (.error .indexOutOfRange, [])

/-- bulk:request_input(consumer, [flags]), lines 718-730.  Note: no
validity check of any kind precedes the driver call. -/
def bulk_request_input (drv : Driver) (b : LuaLineBulk) (consumer : String)
    (flags : Option Int) :
    Except LuaErr Bool × List DriverCall :=
  let f := c_int_cast (flags.getD 0)
  if drv.requestBulkInput b.bulk consumer f < 0 then
    (.error .requestFailed, [.requestBulkInput b.bulk consumer f])
  else
    (.ok true, [.requestBulkInput b.bulk consumer f])

/-- bulk:request_output(consumer, default_vals, [flags]), lines 733-757.
The loop reads exactly num_lines entries from the defaults table before
the single driver request. -/
def bulk_request_output (drv : Driver) (b : LuaLineBulk) (consumer : String)
    (tbl : Nat → Option Int) (flags : Option Int) :
    Except LuaErr Bool × List DriverCall :=
  let f := c_int_cast (flags.getD 0)
  match readTableInts tbl b.bulk.length with
  | .error e => (.error e, [])
  | .ok values =>
    if drv.requestBulkOutput b.bulk consumer f values < 0 then
      (.error .requestFailed, [.requestBulkOutput b.bulk consumer f values])
    else
      (.ok true, [.requestBulkOutput b.bulk consumer f values])

/-- bulk:get_values(), lines 760-780.  The driver fills a buffer of
num_lines ints which the wrapper copies positionally into a fresh Lua
sequence. -/
def bulk_get_values (drv : Driver) (b : LuaLineBulk) :
    Except LuaErr (List Int) × List DriverCall :=
  let res := drv.getValueBulk b.bulk
  if res.1 < 0 then
    (.error .ioFailure, [.getValueBulk b.bulk])
  else
    (.ok ((List.range b.bulk.length).map res.2), [.getValueBulk b.bulk])

/-- bulk:set_values(values_table), lines 783-805. -/
def bulk_set_values (drv : Driver) (b : LuaLineBulk) (tbl : Nat → Option Int) :
    Except LuaErr Bool × List DriverCall :=
  match readTableInts tbl b.bulk.length with
  | .error e => (.error e, [])
  | .ok values =>
    if drv.setValueBulk b.bulk values < 0 then
      (.error .ioFailure, [.setValueBulk b.bulk values])
    else
      (.ok true, [.setValueBulk b.bulk values])

/-- bulk:release(), lines 808-813: unconditionally calls the driver
bulk release; the wrapper keeps no released state for a bulk. -/
def bulk_release (b : LuaLineBulk) : LuaLineBulk × List DriverCall :=
  (b, [.releaseBulk b.bulk])

/-- iter:next(), lines 868-889: calls gpiod_chip_iter_next_noclose. -/
def chip_iter_next (it : LuaChipIter) :
    Option LuaChip × LuaChipIter × List DriverCall :=
  match it.iter with
  | none => (none, it, [])
  | some rem =>
    match rem with
    | [] => (none, ⟨some []⟩, [.iterNextNoclose])
    | c :: rest => (some ⟨some c⟩, ⟨some rest⟩, [.iterNextNoclose])

/-- iter:next_noclose(), lines 892-913: the body is identical to
iter:next(), also calling gpiod_chip_iter_next_noclose. -/
def chip_iter_next_noclose (it : LuaChipIter) :
    Option LuaChip × LuaChipIter × List DriverCall :=
  match it.iter with
  | none => (none, it, [])
  | some rem =>
    match rem with
    | [] => (none, ⟨some []⟩, [.iterNextNoclose])
    | c :: rest => (some ⟨some c⟩, ⟨some rest⟩, [.iterNextNoclose])

/-- iter:close(), lines 916-925: frees the iterator state with
gpiod_chip_iter_free_noclose (which closes no chip) and nulls it;
a no-op when already closed. -/
def chip_iter_close (it : LuaChipIter) : LuaChipIter × List DriverCall :=
  match it.iter with
  | none => (it, [])
  | some _ => (⟨none⟩, [.iterFreeNoclose])

-- ===========================================================================
-- Observers and concrete drivers used in the theorems below
-- ===========================================================================

/-- Whether a wrapper call succeeded. -/
def isOkRes {α : Type} : Except LuaErr α → Bool
  | .ok _ => true
  | .error _ => false

/-- A driver on which every operation succeeds (and reports value 0). -/
def okDriver : Driver where
  openByName := fun _ => none
  openByNumber := fun _ => none
  chipName := fun _ => ""
  chipLabel := fun _ => ""
  chipNumLines := fun _ => 0
  getLine := fun _ _ => none
  getLines := fun _ _ => none
  findLine := fun _ _ => none
  getAllLines := fun _ => none
  getLineValue := fun _ => 0
  setLineValue := fun _ _ => 0
  requestInput := fun _ _ _ => 0
  requestOutput := fun _ _ _ _ => 0
  eventWait := fun _ _ => 0
  requestBulkInput := fun _ _ _ => 0
  requestBulkOutput := fun _ _ _ _ => 0
  getValueBulk := fun _ => (0, fun _ => 0)
  setValueBulk := fun _ _ => 0

/-- A driver whose bulk value read fails. -/
def failDriver : Driver :=
  { okDriver with getValueBulk := fun _ => (-1, fun _ => 0) }

/-- A driver that cannot resolve any name but exposes chip number 0. -/
def drvNum0 : Driver :=
  { okDriver with openByNumber := fun n => if n = 0 then some 7 else none }

-- ===========================================================================
-- The claims exactly as stated, for the corrected ones
-- ===========================================================================

/-- Claim C1 as stated: for a defaults sequence whose length differs
from num_lines, request_output fails with RequestFailed and performs no
driver request. -/
def claimC1 : Prop :=
  ∀ (drv : Driver) (b : LuaLineBulk) (consumer : String) (l : List Int)
    (flags : Option Int), l.length ≠ b.bulk.length →
      bulk_request_output drv b consumer (tableOfList l) flags
        = (.error .requestFailed, [])

/-- Claim C2 as stated, instantiated at line groups (one of the handle
kinds it quantifies over): an operation on a released group must raise
ReleasedResource proactively, without letting the driver fail first. -/
def claimC2 : Prop :=
  ∀ (drv : Driver) (b : LuaLineBulk),
    (bulk_get_values drv (bulk_release b).1).1 = .error .lineReleased
    ∧ (bulk_get_values drv (bulk_release b).1).2 = []

/-- Claim C3 as stated, first half: a values sequence whose length
differs from num_lines makes set_values fail (an error, never silent
truncation or padding). -/
def claimC3 : Prop :=
  ∀ (drv : Driver) (b : LuaLineBulk) (l : List Int),
    l.length ≠ b.bulk.length →
      isOkRes (bulk_set_values drv b (tableOfList l)).1 = false

/-- Claim C4 as stated, the ownership part: after next_noclose yields a
controller the enumerator still owns it (next_noclose semantics), so
close() must close it, i.e. emit a driver chip-close call for it. -/
def claimC4 : Prop :=
  ∀ (c : ChipRef) (rest : List ChipRef),
    DriverCall.chipClose c
      ∈ (chip_iter_close (chip_iter_next_noclose ⟨some (c :: rest)⟩).2.1).2

/-- Claim C5 as stated: when resolution by name fails and the string is
not a valid unsigned integer, open fails with DeviceNotFound (no retry
by index can apply). -/
def claimC5 : Prop :=
  ∀ (drv : Driver) (s : String),
    drv.openByName s = none → isValidUnsignedInteger s = false →
      (chip_open drv s).1 = .error .deviceNotFound

/-- Claim C9 as stated, the idempotence part: a second release() on an
already-released group is a no-op, performing no driver call. -/
def claimC9 : Prop :=
  ∀ b : LuaLineBulk, (bulk_release (bulk_release b).1).2 = []

-- ===========================================================================
-- Helper lemmas
-- ===========================================================================

theorem tableOfList_get (l : List Int) (i : Nat) :
    tableOfList l (i + 1) = l.get? i := by
  simp [tableOfList]

theorem readTableIntsFrom_tableOfList_ok (l : List Int) :
    ∀ (n i : Nat), i + n ≤ l.length →
      readTableIntsFrom (tableOfList l) (i + 1) n
        = .ok (((l.drop i).take n).map c_int_cast) := by
  intro n
  induction n with
  | zero =>
    intro i _
    simp [readTableIntsFrom]
  | succ n ih =>
    intro i h
    have hi : i < l.length := by omega
    have hget : tableOfList l (i + 1) = some (l.get ⟨i, hi⟩) :=
      (tableOfList_get l i).trans (List.get?_eq_get hi)
    simp only [readTableIntsFrom, hget, ih (i + 1) (by omega)]
    rw [List.drop_eq_getElem_cons hi, List.take_succ_cons, List.map_cons]
    simp [List.get_eq_getElem]

theorem readTableIntsFrom_tableOfList_err (l : List Int) :
    ∀ (n i : Nat), i ≤ l.length → l.length < i + n →
      readTableIntsFrom (tableOfList l) (i + 1) n = .error .argError := by
  intro n
  induction n with
  | zero => intro i h1 h2; omega
  | succ n ih =>
    intro i h1 h2
    rcases Nat.lt_or_ge i l.length with hi | hi
    · have hget : tableOfList l (i + 1) = some (l.get ⟨i, hi⟩) :=
        (tableOfList_get l i).trans (List.get?_eq_get hi)
      simp only [readTableIntsFrom, hget, ih (i + 1) (by omega) (by omega)]
    · have hget : tableOfList l (i + 1) = none :=
        (tableOfList_get l i).trans (List.get?_eq_none.mpr (by omega))
      simp only [readTableIntsFrom, hget]

theorem readTableInts_tableOfList_ok (l : List Int) (n : Nat) (h : n ≤ l.length) :
    readTableInts (tableOfList l) n = .ok ((l.take n).map c_int_cast) := by
  have h0 := readTableIntsFrom_tableOfList_ok l n 0 (by omega)
  simpa [readTableInts] using h0

theorem readTableInts_tableOfList_err (l : List Int) (n : Nat) (h : l.length < n) :
    readTableInts (tableOfList l) n = .error .argError := by
  have h0 := readTableIntsFrom_tableOfList_err l n 0 (by omega) (by omega)
  simpa [readTableInts] using h0

theorem not_cspace_of_digit (c : Char) (h : c.isDigit = true) : isCSpace c = false := by
  cases hb : isCSpace c with
  | false => rfl
  | true =>
    exfalso
    simp only [isCSpace, Bool.or_eq_true, beq_iff_eq] at hb
    rcases hb with ((((h1 | h1) | h1) | h1) | h1) | h1 <;> subst h1 <;>
      exact absurd h (by decide)

theorem digit_beq_sign_false (c : Char) (h : c.isDigit = true) :
    ((c == '-') = false) ∧ ((c == '+') = false) := by
  constructor <;>
    (rw [beq_eq_false_iff_ne]; intro he; subst he; exact absurd h (by decide))

theorem consumedAll_of_validUInt (s : String) :
    isValidUnsignedInteger s = true → (strtoul10 s).consumedAll = true := by
  intro h
  unfold isValidUnsignedInteger at h
  rw [Bool.and_eq_true] at h
  obtain ⟨h1, h2⟩ := h
  rcases hd : s.data with _ | ⟨c, rest⟩
  · rw [hd] at h1; exact absurd h1 (by decide)
  · have hall : ∀ x ∈ s.data, x.isDigit = true := by
      intro x hx
      exact List.all_eq_true.mp h2 x hx
    have hcd : c.isDigit = true := hall c (by rw [hd]; exact List.mem_cons_self c rest)
    have hWs : List.dropWhile isCSpace (c :: rest) = c :: rest := by
      rw [List.dropWhile_cons, not_cspace_of_digit c hcd]
      simp
    have hsig : splitSign (c :: rest) = (false, c :: rest) := by
      have hs := digit_beq_sign_false c hcd
      simp [splitSign, hs.1, hs.2]
    have hdigits : List.dropWhile Char.isDigit (c :: rest) = [] := by
      rw [List.dropWhile_eq_nil_iff]
      intro x hx
      exact hall x (by rw [hd]; exact hx)
    have htake : ¬ (List.takeWhile Char.isDigit (c :: rest)).isEmpty = true := by
      rw [List.takeWhile_cons, if_pos hcd]
      simp
    simp only [strtoul10, hd, hWs, hsig, hdigits]
    rw [if_neg htake]
    rfl

-- ===========================================================================
-- Claim theorems
-- ===========================================================================

/-- C6: for every controller handle, after close() the descriptor is
null and every accessor (name, label, line count) and line-deriving
operation (get_line, get_lines, find_line, get_all_lines) fails with
ClosedResource while performing no driver call, and a second close()
is a no-op that performs no driver call and never raises. -/
theorem c6_close_then_accessors (drv : Driver) (c : LuaChip) :
    ((chip_close c).1.chip = none)
    ∧ chip_name drv (chip_close c).1 = (.error .chipClosed, [])
    ∧ chip_label drv (chip_close c).1 = (.error .chipClosed, [])
    ∧ chip_num_lines drv (chip_close c).1 = (.error .chipClosed, [])
    ∧ (∀ off, chip_get_line drv (chip_close c).1 off = (.error .chipClosed, []))
    ∧ (∀ offs, chip_get_lines drv (chip_close c).1 offs = (.error .chipClosed, []))
    ∧ (∀ s, chip_find_line drv (chip_close c).1 s = (.error .chipClosed, []))
    ∧ chip_get_all_lines drv (chip_close c).1 = (.error .chipClosed, [])
    ∧ chip_close (chip_close c).1 = ((chip_close c).1, []) := by
  rcases c with ⟨_ | cr⟩ <;>
    exact ⟨rfl, rfl, rfl, rfl, fun _ => rfl, fun _ => rfl, fun _ => rfl, rfl, rfl⟩

/-- C7: for every line handle, release() nulls the native reference,
after which get_value() and set_value() fail with ReleasedResource
while performing no driver call, and a second release() is a no-op
that performs no driver call and never raises. -/
theorem c7_release_then_ops (drv : Driver) (l : LuaLine) :
    ((line_release l).1.line = none)
    ∧ line_get_value drv (line_release l).1 = (.error .lineReleased, [])
    ∧ (∀ v, line_set_value drv (line_release l).1 v = (.error .lineReleased, []))
    ∧ line_release (line_release l).1 = ((line_release l).1, []) := by
  rcases l with ⟨_ | lr, ch⟩ <;> exact ⟨rfl, rfl, fun _ => rfl, rfl⟩

/-- C10: for every enumerator state, next() and next_noclose() are the
same function: same returned controller or empty result, same effect
on the enumerator state, and the same driver calls (in particular the
same effect on close-ownership of previously yielded controllers). -/
theorem c10_next_eq_noclose :
    ∀ it : LuaChipIter, chip_iter_next it = chip_iter_next_noclose it :=
  fun _ => rfl

/-- C9 (counterexample): the claim that a second release() on an
already-released group is a no-op is false: the wrapper tracks no
released state for a bulk, so the second call re-issues the driver
bulk release. -/
theorem c9_counterexample : ¬ claimC9 := fun h => by
  have h5 := h ⟨[5], 0⟩
  rw [show (bulk_release (bulk_release ⟨[5], 0⟩).1).2
      = [DriverCall.releaseBulk [5]] from rfl] at h5
  exact List.noConfusion h5

/-- C9 (amended): release() issues a single driver bulk-release call
covering every line of the group and never raises; but it is not
idempotent at the wrapper level: a second release() re-issues the same
driver bulk-release call instead of being a no-op (the wrapper keeps
no released state for a bulk and relies on the driver to tolerate it). -/
theorem c9_amended (b : LuaLineBulk) :
    bulk_release b = (b, [.releaseBulk b.bulk])
    ∧ bulk_release (bulk_release b).1 = (b, [.releaseBulk b.bulk]) :=
  ⟨rfl, rfl⟩

/-- C4 (counterexample): the claim that close() closes every controller
the enumerator still owns under next_noclose semantics is false: after
next_noclose yields chip 3 the enumerator still owns it per the spec,
yet close() only emits the non-closing iterator free and no chip-close
call. -/
theorem c4_counterexample : ¬ claimC4 := fun h => by
  have h3 := h 3 []
  rw [show (chip_iter_close (chip_iter_next_noclose ⟨some (3 :: [])⟩).2.1).2
      = [DriverCall.iterFreeNoclose] from rfl] at h3
  exact absurd h3 (by decide)

/-- C4 (amended): close() releases the enumerator state using the
driver's non-closing iterator free and never emits a controller-close
call (controllers yielded by next_noclose are left for the caller);
close() is idempotent (a second close performs no driver call and
never raises), and after close() both next() and next_noclose() yield
the normal empty result with no driver call rather than raising. -/
theorem c4_amended (it : LuaChipIter) (rem : List ChipRef) :
    ((chip_iter_close it).1.iter = none)
    ∧ (chip_iter_close ⟨some rem⟩).2 = [.iterFreeNoclose]
    ∧ chip_iter_close ⟨none⟩ = (⟨none⟩, [])
    ∧ chip_iter_close (chip_iter_close it).1 = ((chip_iter_close it).1, [])
    ∧ chip_iter_next (chip_iter_close it).1 = (none, (chip_iter_close it).1, [])
    ∧ chip_iter_next_noclose (chip_iter_close it).1
        = (none, (chip_iter_close it).1, []) := by
  rcases it with ⟨_ | r⟩ <;> exact ⟨rfl, rfl, rfl, rfl, rfl, rfl⟩

/-- C2 (counterexample): the claim that resource-state errors are
raised by a validity check before any driver call on every handle kind
is false for line groups: get_values on a released group still issues
the driver call (and the driver failure surfaces as IOFailure, not
ReleasedResource). -/
theorem c2_counterexample : ¬ claimC2 := fun h => by
  have h5 := (h failDriver ⟨[5], 0⟩).2
  rw [show (bulk_get_values failDriver (bulk_release ⟨[5], 0⟩).1).2
      = [DriverCall.getValueBulk [5]] from rfl] at h5
  exact List.noConfusion h5

/-- C2 (amended): controller and line operations do raise ClosedResource
and ReleasedResource by checking the stored handle before any driver
call (the error paths perform no driver call); line-group operations
perform no such check: a bulk tracks no released state and get_values
and request_input always issue their driver call unconditionally. -/
theorem c2_amended (drv : Driver) (ch : ChipRef) (b : LuaLineBulk) :
    chip_name drv ⟨none⟩ = (.error .chipClosed, [])
    ∧ chip_label drv ⟨none⟩ = (.error .chipClosed, [])
    ∧ chip_num_lines drv ⟨none⟩ = (.error .chipClosed, [])
    ∧ (∀ off, chip_get_line drv ⟨none⟩ off = (.error .chipClosed, []))
    ∧ (∀ offs, chip_get_lines drv ⟨none⟩ offs = (.error .chipClosed, []))
    ∧ (∀ s, chip_find_line drv ⟨none⟩ s = (.error .chipClosed, []))
    ∧ chip_get_all_lines drv ⟨none⟩ = (.error .chipClosed, [])
    ∧ line_get_value drv ⟨none, ch⟩ = (.error .lineReleased, [])
    ∧ (∀ v, line_set_value drv ⟨none, ch⟩ v = (.error .lineReleased, []))
    ∧ (∀ cons fl, line_request_input drv ⟨none, ch⟩ cons fl = (.error .lineReleased, []))
    ∧ (∀ cons dv fl,
        line_request_output drv ⟨none, ch⟩ cons dv fl = (.error .lineReleased, []))
    ∧ (∀ t, line_event_wait drv ⟨none, ch⟩ t = (.error .lineReleased, []))
    ∧ (bulk_get_values drv b).2 = [.getValueBulk b.bulk]
    ∧ (∀ cons fl, (bulk_request_input drv b cons fl).2
        = [.requestBulkInput b.bulk cons (c_int_cast (fl.getD 0))]) := by
  refine ⟨rfl, rfl, rfl, fun _ => rfl, fun _ => rfl, fun _ => rfl, rfl, rfl,
    fun _ => rfl, fun _ _ => rfl, fun _ _ _ => rfl, fun _ => rfl, ?_, ?_⟩
  · simp only [bulk_get_values]
    split <;> rfl
  · intro cons fl
    simp only [bulk_request_input]
    split <;> rfl

/-- C1 (counterexample): the claim that request_output with a defaults
sequence of mismatched length always fails with RequestFailed and
performs no driver request is false: a sequence longer than num_lines
is silently truncated to the first num_lines entries and the driver
request is issued (and can succeed). -/
theorem c1_counterexample : ¬ claimC1 := fun h => by
  have heq := h okDriver ⟨[5], 0⟩ "c" [0, 1] none (by decide)
  have h2 := congrArg Prod.snd heq
  rw [show (bulk_request_output okDriver ⟨[5], 0⟩ "c" (tableOfList [0, 1]) none).2
      = [DriverCall.requestBulkOutput [5] "c" 0 [0]] from rfl] at h2
  exact List.noConfusion h2

/-- C1 (amended): for a group in output direction, request_output with
a defaults sequence shorter than num_lines fails with the Lua argument
error raised by luaL_checkinteger on the first missing entry (not with
RequestFailed) and performs no driver call; with a sequence of length
at least num_lines, the first num_lines entries are read positionally
(a longer sequence is silently truncated) and passed to a single
atomic driver request, which fails with RequestFailed exactly when the
driver rejects it. -/
theorem c1_amended (drv : Driver) (b : LuaLineBulk) (consumer : String)
    (l : List Int) (flags : Option Int) :
    (l.length < b.bulk.length →
      bulk_request_output drv b consumer (tableOfList l) flags
        = (.error .argError, []))
    ∧ (b.bulk.length ≤ l.length →
      bulk_request_output drv b consumer (tableOfList l) flags =
        (if drv.requestBulkOutput b.bulk consumer (c_int_cast (flags.getD 0))
              ((l.take b.bulk.length).map c_int_cast) < 0 then
          (.error .requestFailed,
            [.requestBulkOutput b.bulk consumer (c_int_cast (flags.getD 0))
              ((l.take b.bulk.length).map c_int_cast)])
        else
          (.ok true,
            [.requestBulkOutput b.bulk consumer (c_int_cast (flags.getD 0))
              ((l.take b.bulk.length).map c_int_cast)]))) := by
  constructor
  · intro h
    simp only [bulk_request_output, readTableInts_tableOfList_err l b.bulk.length h]
  · intro h
    simp only [bulk_request_output, readTableInts_tableOfList_ok l b.bulk.length h]

/-- C1 (witness): the amended claim evaluated at a one-line group with
an empty defaults sequence (argument error, no driver call) and with a
two-entry defaults sequence (truncated to one value, request issued
and successful). -/
theorem c1_amended_witness :
    bulk_request_output okDriver ⟨[5], 0⟩ "c" (tableOfList []) none
      = (.error .argError, [])
    ∧ bulk_request_output okDriver ⟨[5], 0⟩ "c" (tableOfList [1, 0]) none
      = (.ok true, [.requestBulkOutput [5] "c" 0 [1]]) := by
  constructor
  · exact (c1_amended okDriver ⟨[5], 0⟩ "c" [] none).1 (by decide)
  · have h := (c1_amended okDriver ⟨[5], 0⟩ "c" [1, 0] none).2 (by decide)
    rw [h]
    rfl

/-- C3 (counterexample): the claim that set_values with a values
sequence of mismatched length is an error is false: a sequence longer
than num_lines is silently truncated and the call succeeds. -/
theorem c3_counterexample : ¬ claimC3 := fun h => by
  have hb := h okDriver ⟨[5], 0⟩ [7, 8] (by decide)
  rw [show isOkRes (bulk_set_values okDriver ⟨[5], 0⟩ (tableOfList [7, 8])).1
      = true from rfl] at hb
  exact Bool.noConfusion hb

/-- C3 (amended): get_values issues a single driver bulk read and, on
success, returns exactly num_lines values positionally (entry i is the
value the driver wrote at index i, matching the group's line at index
i); set_values with a sequence shorter than num_lines fails with the
Lua argument error before any driver call, and with a sequence of
length at least num_lines it passes the first num_lines entries
positionally to a single driver bulk write (a longer sequence is
silently truncated, not an error). -/
theorem c3_amended (drv : Driver) (b : LuaLineBulk) :
    ((bulk_get_values drv b).2 = [.getValueBulk b.bulk])
    ∧ (0 ≤ (drv.getValueBulk b.bulk).1 →
        (bulk_get_values drv b).1
          = .ok ((List.range b.bulk.length).map (drv.getValueBulk b.bulk).2))
    ∧ (((List.range b.bulk.length).map (drv.getValueBulk b.bulk).2).length
        = b.bulk.length)
    ∧ (∀ i, i < b.bulk.length →
        ((List.range b.bulk.length).map (drv.getValueBulk b.bulk).2)[i]?
          = some ((drv.getValueBulk b.bulk).2 i))
    ∧ ((drv.getValueBulk b.bulk).1 < 0 →
        (bulk_get_values drv b).1 = .error .ioFailure)
    ∧ (∀ l : List Int, l.length < b.bulk.length →
        bulk_set_values drv b (tableOfList l) = (.error .argError, []))
    ∧ (∀ l : List Int, b.bulk.length ≤ l.length →
        (bulk_set_values drv b (tableOfList l)).2
          = [.setValueBulk b.bulk ((l.take b.bulk.length).map c_int_cast)]) := by
  refine ⟨?_, ?_, by simp, ?_, ?_, ?_, ?_⟩
  · simp only [bulk_get_values]
    split <;> rfl
  · intro h
    simp only [bulk_get_values]
    rw [if_neg (not_lt.mpr h)]
  · intro i hi
    simp [List.getElem?_map, List.getElem?_range hi]
  · intro h
    simp only [bulk_get_values]
    rw [if_pos h]
  · intro l hl
    simp only [bulk_set_values, readTableInts_tableOfList_err l b.bulk.length hl]
  · intro l hl
    simp only [bulk_set_values, readTableInts_tableOfList_ok l b.bulk.length hl]
    split <;> rfl

/-- C3 (witness): the amended claim evaluated at a two-line group:
get_values succeeds with exactly two positional values; set_values
with one entry is an argument error with no driver call; set_values
with three entries passes the first two to the driver. -/
theorem c3_amended_witness :
    (bulk_get_values okDriver ⟨[3, 9], 0⟩).1 = .ok [0, 0]
    ∧ bulk_set_values okDriver ⟨[3, 9], 0⟩ (tableOfList [7])
      = (.error .argError, [])
    ∧ (bulk_set_values okDriver ⟨[3, 9], 0⟩ (tableOfList [1, 0, 1])).2
      = [.setValueBulk [3, 9] [1, 0]] := by
  refine ⟨?_, ?_, ?_⟩
  · have h := (c3_amended okDriver ⟨[3, 9], 0⟩).2.1 (by decide)
    rw [h]
    rfl
  · exact (c3_amended okDriver ⟨[3, 9], 0⟩).2.2.2.2.2.1 [7] (by decide)
  · have h := (c3_amended okDriver ⟨[3, 9], 0⟩).2.2.2.2.2.2 [1, 0, 1] (by decide)
    rw [h]
    rfl

/-- C5 (counterexample): the claim that open fails with DeviceNotFound
whenever name resolution fails and the string is not a valid unsigned
integer is false: for the empty string strtoul consumes the whole
string without reading a digit, so the wrapper retries it as
controller index 0 and can succeed. -/
theorem c5_counterexample : ¬ claimC5 := fun h =>
  Except.noConfusion
    ((rfl : (chip_open drvNum0 "").1 = .ok ⟨some 7⟩).symm.trans
      (h drvNum0 "" rfl (by decide)))

/-- C5 (amended): open(s) always attempts name resolution first; it
retries as a controller index exactly when name resolution fails and
strtoul (base 10) consumes the entire string, using the parsed value
truncated to unsigned int (this includes every valid unsigned integer
string, but also the empty string and strings with leading whitespace
or a sign); it fails, with DeviceNotFound, exactly when every
attempted resolution fails. -/
theorem c5_amended (drv : Driver) (s : String) :
    ((chip_open drv s).2.head? = some (.openByName s))
    ∧ (isOkRes (chip_open drv s).1 = false
        ↔ drv.openByName s = none
          ∧ ((strtoul10 s).consumedAll = false
             ∨ drv.openByNumber ((strtoul10 s).value % 2 ^ 32) = none))
    ∧ ((chip_open drv s).2
          = [.openByName s, .openByNumber ((strtoul10 s).value % 2 ^ 32)]
        ↔ drv.openByName s = none ∧ (strtoul10 s).consumedAll = true)
    ∧ (isOkRes (chip_open drv s).1 = false →
        (chip_open drv s).1 = .error .deviceNotFound)
    ∧ (isValidUnsignedInteger s = true → (strtoul10 s).consumedAll = true) := by
  refine ⟨?_, ?_, ?_, ?_, consumedAll_of_validUInt s⟩ <;>
  · rcases hn : drv.openByName s with _ | c
    · rcases hca : (strtoul10 s).consumedAll with _ | _
      · simp [chip_open, hn, hca, isOkRes]
      · rcases hnum : drv.openByNumber ((strtoul10 s).value % 4294967296) with _ | c2
        · simp [chip_open, hn, hca, hnum, isOkRes]
        · simp [chip_open, hn, hca, hnum, isOkRes]
    · simp [chip_open, hn, isOkRes]

/-- C5 (witness): the amended claim evaluated on a driver exposing only
controller index 0: the string "0" resolves by index after the name
attempt fails, and "abc" fails with DeviceNotFound. -/
theorem c5_amended_witness :
    (chip_open drvNum0 "0").2 = [.openByName "0", .openByNumber 0]
    ∧ (chip_open drvNum0 "abc").1 = .error .deviceNotFound := by
  constructor
  · have h := ((c5_amended drvNum0 "0").2.2.1).mpr ⟨rfl, by decide⟩
    rw [h]
    rw [show ((strtoul10 "0").value % 2 ^ 32) = 0 from by decide]
  · exact (c5_amended drvNum0 "abc").2.2.2.1 (by decide)

/-- C8: event_wait on a requested line performs exactly one driver
call, the edge wait with the computed deadline (so in particular it
never issues an event read and cannot consume the event); the deadline
is absent (wait indefinitely) when the timeout is omitted or negative
and is the truncated timespec of the timeout when it is non-negative;
the call succeeds exactly when the driver wait does not fail, and the
returned boolean is true exactly when the driver reports an event
ready before the deadline (positive return). -/
theorem c8_event_wait (drv : Driver) (lr : LineRef) (ch : ChipRef)
    (timeout : Option ℚ) :
    ((line_event_wait drv ⟨some lr, ch⟩ timeout).2
       = [.eventWait lr (waitDeadline timeout)])
    ∧ waitDeadline none = none
    ∧ (∀ q : ℚ, q < 0 → waitDeadline (some q) = none)
    ∧ (∀ q : ℚ, 0 ≤ q → waitDeadline (some q) = some (timespecOfRat q))
    ∧ (isOkRes (line_event_wait drv ⟨some lr, ch⟩ timeout).1 = true
        ↔ 0 ≤ drv.eventWait lr (waitDeadline timeout))
    ∧ ((line_event_wait drv ⟨some lr, ch⟩ timeout).1 = .ok true
        ↔ 0 < drv.eventWait lr (waitDeadline timeout)) := by
  have hcall : line_event_wait drv ⟨some lr, ch⟩ timeout
      = (if drv.eventWait lr (waitDeadline timeout) < 0 then
          (.error .ioFailure, [.eventWait lr (waitDeadline timeout)])
        else
          (.ok (decide (0 < drv.eventWait lr (waitDeadline timeout))),
            [.eventWait lr (waitDeadline timeout)])) := rfl
  refine ⟨?_, rfl, ?_, ?_, ?_, ?_⟩
  · rw [hcall]
    split <;> rfl
  · intro q hq
    simp [waitDeadline, not_le.mpr hq]
  · intro q hq
    simp [waitDeadline, hq]
  · rw [hcall]
    rcases lt_or_le (drv.eventWait lr (waitDeadline timeout)) 0 with h | h
    · rw [if_pos h]
      exact iff_of_false (by simp [isOkRes]) (by omega)
    · rw [if_neg (not_lt.mpr h)]
      exact iff_of_true (by simp [isOkRes]) h
  · rw [hcall]
    rcases lt_or_le (drv.eventWait lr (waitDeadline timeout)) 0 with h | h
    · rw [if_pos h]
      exact iff_of_false (fun he => Except.noConfusion he) (by omega)
    · rw [if_neg (not_lt.mpr h)]
      simp

/-- C8 (witness): the claim evaluated at a requested line with timeout
3/2 seconds (deadline 1 second and 500000000 nanoseconds) and at the
negative timeout -2 (indefinite wait). -/
theorem c8_event_wait_witness :
    (line_event_wait okDriver ⟨some 4, 0⟩ (some (3 / 2))).2
      = [.eventWait 4 (some ⟨1, 500000000⟩)]
    ∧ waitDeadline (some (-2)) = none := by
  constructor
  · have h := (c8_event_wait okDriver 4 0 (some (3 / 2))).1
    rw [h]
    rw [show waitDeadline (some ((3 : ℚ) / 2)) = some ⟨1, 500000000⟩ from by
      simp only [waitDeadline, timespecOfRat, Option.getD_some]
      rw [if_pos (by norm_num)]
      norm_num]
  · exact (c8_event_wait okDriver 4 0 (some (3 / 2))).2.2.1 (-2) (by norm_num)
